import Mathlib

/-!
Shallow embedding of the OTA transfer state machine of
`src/BLEOtaUpdate.h` / `src/BLEOtaUpdate.cpp`.

The embedded functions are `handleOtaWrite` (BLEOtaUpdate.cpp:229-307),
`abortUpdate` (145-153), `onClientDisconnect` (326-337) and
`getUpdatePercentage` (176-179).  The external Flash Writer (the ESP32
`Update` object) is abstracted as an oracle (`FlashModel`) and every call
the session makes on it is recorded as an event (`Ev`).  BLE transport,
serial prints, `delay`, callbacks and notifications are external side
effects carrying no session state and are not modelled.

Machine integers: `otaFileSize` and `otaReceived` are `uint32_t` in the
source; they are modelled as `Nat`, with an explicit `% 2 ^ 32` at the one
place the C++ can overflow (`otaReceived += written`), and the percentage
computation models the `uint32_t` arithmetic and the `uint8_t` return
conversion with explicit `% 2 ^ 32` / `% 2 ^ 8`.

A crucial detail of the source, kept by the embedding: line 230 reads
`std::string value = pCharacteristic->getValue().c_str();` — constructing
a `std::string` from a C string stops at the first NUL byte, so the frame
the rest of the function sees is the longest zero-free initial segment of
the bytes actually written (`cstrTrunc` below).
-/

/-- `OtaStatus` from BLEOtaUpdate.h:23-29. -/
inductive OtaStatus where
  | IDLE
  | RECEIVING
  | COMPLETED
  | ERROR
  | ABORTED
deriving DecidableEq, Repr

/-- Calls made on the external Flash Writer (`Update.begin`, `Update.write`,
`Update.end`) plus the device restart (`ESP.restart()`), recorded in order. -/
inductive Ev where
  | beginCall (size : Nat)
  | write (data : List Nat)
  | endCall (commit : Bool)
  | restart
deriving DecidableEq, Repr

/-- Whether an event is a Flash Writer `write` call. -/
def Ev.isWrite : Ev → Bool
  | Ev.write _ => true
  | _ => false

/-- The OTA-session fields of class `BLEOtaUpdate` (BLEOtaUpdate.h:95-100):
`otaInProgress`, `otaFileSize`, `otaReceived`, `otaStatus`, `clientConnected`,
plus the last status message passed to `setOtaStatus`. -/
structure OtaState where
  otaInProgress : Bool
  otaFileSize : Nat
  otaReceived : Nat
  otaStatus : OtaStatus
  clientConnected : Bool
  lastMessage : Option String
deriving DecidableEq, Repr

/-- Oracle for the external Flash Writer: result of `Update.begin(size)`,
byte count returned by `Update.write(data, len)`, result of
`Update.end(commit)`. -/
structure FlashModel where
  beginOk : Nat → Bool
  writeCount : List Nat → Nat
  endOk : Bool → Bool

/-- A well-behaved Flash Writer: `begin` always succeeds, `write` writes the
whole chunk, `end` always succeeds. -/
def fmPerfect : FlashModel :=
  { beginOk := fun _ => true
    writeCount := fun d => d.length
    endOk := fun _ => true }

/-- `OTA_CMD_OPEN` = "OPEN" (BLEOtaUpdate.h:18), as ASCII bytes. -/
def OTA_CMD_OPEN : List Nat := [79, 80, 69, 78]

/-- `OTA_CMD_DONE` = "DONE" (BLEOtaUpdate.h:19), as ASCII bytes. -/
def OTA_CMD_DONE : List Nat := [68, 79, 78, 69]

/-- `OTA_CMD_ABORT` = "ABORT" (BLEOtaUpdate.h:20), as ASCII bytes. -/
def OTA_CMD_ABORT : List Nat := [65, 66, 79, 82, 84]

/-- Session state right after the constructor (BLEOtaUpdate.cpp:18-22). -/
def initState : OtaState :=
  { otaInProgress := false
    otaFileSize := 0
    otaReceived := 0
    otaStatus := OtaStatus.IDLE
    clientConnected := false
    lastMessage := none }

/-- `setOtaStatus` (BLEOtaUpdate.cpp:350-358): record the status and the
message (all call sites in the modelled code pass a non-null message). -/
def setOtaStatus (s : OtaState) (st : OtaStatus) (msg : String) : OtaState :=
  { s with otaStatus := st, lastMessage := some msg }

/-- `abortUpdate` (BLEOtaUpdate.cpp:145-153): if a transfer is in progress,
call `Update.end(false)`, reset the counters and go to `ABORTED`. -/
def abortUpdate (s : OtaState) : OtaState × List Ev :=
  if s.otaInProgress = true then
    (setOtaStatus
       { s with otaInProgress := false, otaFileSize := 0, otaReceived := 0 }
       OtaStatus.ABORTED "Update aborted by user",
     [Ev.endCall false])
  else (s, [])

/-- Effect of `std::string value = pCharacteristic->getValue().c_str();`
(BLEOtaUpdate.cpp:230): the `std::string(const char*)` constructor copies
bytes up to (excluding) the first NUL, so the processed frame is the longest
zero-free initial segment of the written bytes. -/
def cstrTrunc (raw : List Nat) : List Nat :=
  raw.takeWhile (fun b => b ≠ 0)

/-- `memcpy(&otaFileSize, data, 4)` (BLEOtaUpdate.cpp:251) on the
little-endian ESP32: decode 4 bytes as an unsigned 32-bit integer. -/
def le32 (d : List Nat) : Nat :=
  d.getD 0 0 + 256 * d.getD 1 0 + 65536 * d.getD 2 0 + 16777216 * d.getD 3 0

/-- `handleOtaWrite` (BLEOtaUpdate.cpp:229-307), as a function from the raw
bytes written to the OTA characteristic to the next session state and the
list of Flash Writer / restart events, given a Flash Writer oracle `fm`.

Branches, in source order:
* line 234: empty value is a no-op;
* lines 237-246: `OPEN` while `!otaInProgress` starts a session;
* lines 250-262: first 4-byte value while `otaFileSize == 0` is the size;
  `Update.begin` failure gives `ERROR "Not enough space"` (`otaFileSize`
  keeps the just-copied size — the source does not reset it);
* lines 265-284: `DONE`: size mismatch gives `ERROR` + `Update.end(false)`;
  otherwise `Update.end(true)`, and on success `COMPLETED` then
  `ESP.restart()` — which never returns, so the trailing
  `otaInProgress = false` of line 282 is not executed on that path;
* lines 287-291: `ABORT` calls `abortUpdate`;
* lines 294-305: data is written only while `otaReceived < otaFileSize`;
  a positive written count is added to `otaReceived` (uint32 addition, no
  clamping), a zero count gives `ERROR "Write failed"`. -/
def handleOtaWrite (fm : FlashModel) (s : OtaState) (raw : List Nat) :
    OtaState × List Ev :=
  let data := cstrTrunc raw
  let length := data.length
  if length = 0 then (s, [])
  else if s.otaInProgress = false ∧ length = 4 ∧ data = OTA_CMD_OPEN then
    (setOtaStatus
       { s with otaInProgress := true, otaFileSize := 0, otaReceived := 0 }
       OtaStatus.RECEIVING "Update started", [])
  else if s.otaInProgress = true then
    if s.otaFileSize = 0 ∧ length = 4 then
      let sz := le32 data
      if fm.beginOk sz = false then
        (setOtaStatus { s with otaInProgress := false, otaFileSize := sz }
           OtaStatus.ERROR "Not enough space", [Ev.beginCall sz])
      else
        (setOtaStatus { s with otaFileSize := sz }
           OtaStatus.RECEIVING "Receiving firmware", [Ev.beginCall sz])
    else if length = 4 ∧ data = OTA_CMD_DONE then
      if s.otaReceived ≠ s.otaFileSize then
        (setOtaStatus { s with otaInProgress := false }
           OtaStatus.ERROR "Size mismatch", [Ev.endCall false])
      else if fm.endOk true = true then
        (setOtaStatus s OtaStatus.COMPLETED "Update completed successfully",
         [Ev.endCall true, Ev.restart])
      else
        (setOtaStatus { s with otaInProgress := false }
           OtaStatus.ERROR "Update finalization failed", [Ev.endCall true])
    else if length = 5 ∧ data = OTA_CMD_ABORT then
      abortUpdate s
    else if s.otaReceived < s.otaFileSize then
      let written := fm.writeCount data
      if 0 < written then
        ({ s with otaReceived := (s.otaReceived + written) % 2 ^ 32 },
         [Ev.write data])
      else
        (setOtaStatus { s with otaInProgress := false }
           OtaStatus.ERROR "Write failed", [Ev.write data])
    else (s, [])
  else (s, [])

/-- `onClientDisconnect` (BLEOtaUpdate.cpp:326-337): clear `clientConnected`
and, if a transfer is in progress, run `abortUpdate` (re-advertising and the
connection callback are external side effects). -/
def onClientDisconnect (s : OtaState) : OtaState × List Ev :=
  let s1 := { s with clientConnected := false }
  if s1.otaInProgress = true then abortUpdate s1 else (s1, [])

/-- `getUpdatePercentage` (BLEOtaUpdate.cpp:176-179): `uint32_t` product and
division, converted to the `uint8_t` return type. -/
def getUpdatePercentage (s : OtaState) : Nat :=
  if s.otaFileSize = 0 then 0
  else s.otaReceived * 100 % 2 ^ 32 / s.otaFileSize % 2 ^ 8

/-- Process a list of frames in order, accumulating the event trace. -/
def runFrames (fm : FlashModel) (s : OtaState) (frames : List (List Nat)) :
    OtaState × List Ev :=
  match frames with
  | [] => (s, [])
  | f :: rest =>
    let r := handleOtaWrite fm s f
    let r2 := runFrames fm r.1 rest
    (r2.1, r.2 ++ r2.2)

/-- A session in the middle of receiving: transfer in progress, declared size
`fs`, `rc` bytes received so far. -/
def sReceiving (fs rc : Nat) : OtaState :=
  { otaInProgress := true
    otaFileSize := fs
    otaReceived := rc
    otaStatus := OtaStatus.RECEIVING
    clientConnected := true
    lastMessage := some "Receiving firmware" }

/-- The session state produced by a successful `abortUpdate` from state `s`:
counters reset, `ABORTED`, connection flag untouched. -/
def abortedFrom (s : OtaState) : OtaState :=
  { otaInProgress := false
    otaFileSize := 0
    otaReceived := 0
    otaStatus := OtaStatus.ABORTED
    clientConnected := s.clientConnected
    lastMessage := some "Update aborted by user" }

-- Sanity examples (concrete evaluations of the embedding).

example :
    (handleOtaWrite fmPerfect initState OTA_CMD_OPEN).1.otaStatus =
      OtaStatus.RECEIVING := by decide

example :
    (handleOtaWrite fmPerfect (sReceiving 10 0) [7, 7, 7]).1.otaReceived = 3 := by
  decide

set_option maxRecDepth 10000

/-- Claim C1, evaluated at its failing input (code bug): running the exact
protocol the claim describes — OPEN, a 4-byte size frame declaring 1024
(little-endian bytes 0,4,0,0), 1024 payload bytes, DONE — against an
always-succeeding Flash Writer does not reach `COMPLETED`, never calls
`end(true)`, never calls `begin(1024)`, and receives 0 bytes: the size frame
is truncated at its first zero byte by the `std::string(c_str())` round-trip
of line 230 and ignored, the payload is dropped (`otaReceived < otaFileSize`
fails with both 0), and DONE is then consumed as the size frame. -/
theorem C1_code_bug_eval :
    (runFrames fmPerfect initState
        [OTA_CMD_OPEN, [0, 4, 0, 0], List.replicate 1024 7,
          OTA_CMD_DONE]).1.otaStatus ≠ OtaStatus.COMPLETED ∧
    Ev.endCall true ∉ (runFrames fmPerfect initState
        [OTA_CMD_OPEN, [0, 4, 0, 0], List.replicate 1024 7, OTA_CMD_DONE]).2 ∧
    Ev.beginCall 1024 ∉ (runFrames fmPerfect initState
        [OTA_CMD_OPEN, [0, 4, 0, 0], List.replicate 1024 7, OTA_CMD_DONE]).2 ∧
    (runFrames fmPerfect initState
        [OTA_CMD_OPEN, [0, 4, 0, 0], List.replicate 1024 7,
          OTA_CMD_DONE]).1.otaReceived = 0 := by
  decide

/-- Claim C3, evaluated at its failing input (code bug): while `Receiving`
with the size known (after OPEN and size frame 0x01010101), the 3-byte data
frame `[1, 0, 2]` is not passed byte-for-byte with its full length: line 230
truncates it at the zero byte, so the Flash Writer `write` receives only the
1-byte list `[1]` and `otaReceived` advances by 1, not 3. -/
theorem C3_code_bug_eval :
    (runFrames fmPerfect initState
        [OTA_CMD_OPEN, [1, 1, 1, 1], [1, 0, 2]]).2 =
      [Ev.beginCall 16843009, Ev.write [1]] ∧
    Ev.write [1, 0, 2] ∉ (runFrames fmPerfect initState
        [OTA_CMD_OPEN, [1, 1, 1, 1], [1, 0, 2]]).2 ∧
    (runFrames fmPerfect initState
        [OTA_CMD_OPEN, [1, 1, 1, 1], [1, 0, 2]]).1.otaReceived = 1 := by
  decide

/-- Claim C2, counterexample: with `total_size = 2` (positive) and
`received_bytes = 0 ≤ total_size`, processing the 3-byte data frame
`[7, 7, 7]` writes the whole frame (no clamping) and leaves
`received_bytes = 3 > total_size = 2`, so the invariant
`received_bytes ≤ total_size` does not hold after this frame-processing
step and the excess byte beyond `total_size` is written. -/
theorem C2_counterexample :
    (handleOtaWrite fmPerfect (sReceiving 2 0) [7, 7, 7]).1.otaFileSize = 2 ∧
    (handleOtaWrite fmPerfect (sReceiving 2 0) [7, 7, 7]).1.otaReceived = 3 ∧
    ¬ (handleOtaWrite fmPerfect (sReceiving 2 0) [7, 7, 7]).1.otaReceived ≤
        (handleOtaWrite fmPerfect (sReceiving 2 0) [7, 7, 7]).1.otaFileSize ∧
    (handleOtaWrite fmPerfect (sReceiving 2 0) [7, 7, 7]).2 =
      [Ev.write [7, 7, 7]] := by
  decide

/-- Claim C5, counterexample: after OPEN and size frame 0x01010101 the
transfer is in progress; a second 4-byte OPEN frame does not reset the
counters and does not begin a new session — the guard `!otaInProgress` of
line 237 rejects it as a command and it is written to the Flash Writer as
firmware data (`received_bytes` becomes 4, the trace holds exactly the one
original `begin` plus a `write` of the OPEN bytes). -/
theorem C5_counterexample :
    (runFrames fmPerfect initState
        [OTA_CMD_OPEN, [1, 1, 1, 1], OTA_CMD_OPEN]).1.otaReceived = 4 ∧
    ¬ (runFrames fmPerfect initState
        [OTA_CMD_OPEN, [1, 1, 1, 1], OTA_CMD_OPEN]).1.otaReceived = 0 ∧
    (runFrames fmPerfect initState
        [OTA_CMD_OPEN, [1, 1, 1, 1], OTA_CMD_OPEN]).1.otaFileSize = 16843009 ∧
    (runFrames fmPerfect initState
        [OTA_CMD_OPEN, [1, 1, 1, 1], OTA_CMD_OPEN]).2 =
      [Ev.beginCall 16843009, Ev.write OTA_CMD_OPEN] := by
  decide

/-- Claim C6, counterexample: a 4-byte DONE frame arriving immediately after
OPEN, while `total_size` is still 0, is not consumed as the finalize command:
the size-frame branch of lines 250-262 runs first, so DONE is decoded as the
little-endian size 0x454E4F44 = 1162760004, `begin(1162760004)` is called,
the session stays `RECEIVING` and no `end` call happens. -/
theorem C6_counterexample :
    (runFrames fmPerfect initState [OTA_CMD_OPEN, OTA_CMD_DONE]).1.otaStatus =
      OtaStatus.RECEIVING ∧
    (runFrames fmPerfect initState
        [OTA_CMD_OPEN, OTA_CMD_DONE]).1.otaInProgress = true ∧
    (runFrames fmPerfect initState
        [OTA_CMD_OPEN, OTA_CMD_DONE]).1.otaFileSize = 1162760004 ∧
    (runFrames fmPerfect initState [OTA_CMD_OPEN, OTA_CMD_DONE]).2 =
      [Ev.beginCall 1162760004] ∧
    Ev.endCall true ∉ (runFrames fmPerfect initState
        [OTA_CMD_OPEN, OTA_CMD_DONE]).2 ∧
    Ev.endCall false ∉ (runFrames fmPerfect initState
        [OTA_CMD_OPEN, OTA_CMD_DONE]).2 := by
  decide

/-- Claim C9, counterexample: with `received_bytes = 300` and
`total_size = 100` the reported percentage is the `uint8_t` truncation
`300 % 256 = 44`, not `floor(300 * 100 / 100) = 300`. -/
theorem C9_counterexample :
    getUpdatePercentage
        { initState with otaFileSize := 100, otaReceived := 300 } = 44 ∧
    300 * 100 / 100 = 300 ∧
    ¬ getUpdatePercentage
        { initState with otaFileSize := 100, otaReceived := 300 } = 300 := by
  decide

/-- Helper: the truncation of line 230 never lengthens a frame. -/
theorem cstrTrunc_length_le (raw : List Nat) :
    (cstrTrunc raw).length ≤ raw.length := by
  induction raw with
  | nil => simp [cstrTrunc]
  | cons a l ih =>
    by_cases h : a = 0 <;>
      simp_all [cstrTrunc, List.takeWhile_cons]

/-- Claim C2, amended: once `total_size > 0` the invariant
`received_bytes ≤ total_size` is *not* maintained; what holds is that a data
frame is only written while `received_bytes < total_size` and the written
count is bounded by the frame length, so after processing any non-empty
frame `received_bytes < total_size + frame length` (for a Flash Writer that
never reports more bytes written than it was given, and absent uint32
wrap-around). -/
theorem C2_amended (fm : FlashModel) (s : OtaState) (raw : List Nat)
    (hw : ∀ d, fm.writeCount d ≤ d.length)
    (hrc : s.otaReceived ≤ s.otaFileSize)
    (hlen : 1 ≤ raw.length)
    (hbound : s.otaFileSize + raw.length ≤ 2 ^ 32) :
    (handleOtaWrite fm s raw).1.otaReceived < s.otaFileSize + raw.length := by
  have htr := cstrTrunc_length_le raw
  have hwr := hw (cstrTrunc raw)
  have hkey : fm.writeCount (cstrTrunc raw) ≤ raw.length := le_trans hwr htr
  simp only [handleOtaWrite]
  split_ifs <;> simp_all [setOtaStatus, abortUpdate] <;> omega

/-- Witness for C2_amended: from `total_size = 10`, `received_bytes = 4`,
processing the 2-byte frame `[9, 9]` leaves `received_bytes < 12`. -/
theorem C2_amended_witness :
    (handleOtaWrite fmPerfect (sReceiving 10 4) [9, 9]).1.otaReceived <
      10 + 2 :=
  C2_amended fmPerfect (sReceiving 10 4) [9, 9]
    (fun d => Nat.le_refl d.length) (by decide) (by decide) (by decide)

/-- Claim C4 (confirmed): while a transfer is in progress with the size
known, a DONE frame with `received_bytes ≠ total_size` moves the session to
`ERROR` with message "Size mismatch", the Flash Writer receives exactly the
one call `end(false)`, and `received_bytes` is not adjusted. -/
theorem C4_done_size_mismatch (fm : FlashModel) (s : OtaState)
    (hip : s.otaInProgress = true) (hfs : s.otaFileSize ≠ 0)
    (hne : s.otaReceived ≠ s.otaFileSize) :
    (handleOtaWrite fm s OTA_CMD_DONE).1.otaStatus = OtaStatus.ERROR ∧
    (handleOtaWrite fm s OTA_CMD_DONE).1.lastMessage = some "Size mismatch" ∧
    (handleOtaWrite fm s OTA_CMD_DONE).2 = [Ev.endCall false] ∧
    (handleOtaWrite fm s OTA_CMD_DONE).1.otaReceived = s.otaReceived := by
  simp [handleOtaWrite, cstrTrunc, OTA_CMD_DONE, OTA_CMD_OPEN, setOtaStatus,
    hip, hfs, hne]

/-- Witness for C4: the spec scenario with `total_size = 5` and only 3 bytes
received at DONE. -/
theorem C4_witness :
    (handleOtaWrite fmPerfect (sReceiving 5 3) OTA_CMD_DONE).1.otaStatus =
      OtaStatus.ERROR ∧
    (handleOtaWrite fmPerfect (sReceiving 5 3) OTA_CMD_DONE).1.lastMessage =
      some "Size mismatch" ∧
    (handleOtaWrite fmPerfect (sReceiving 5 3) OTA_CMD_DONE).2 =
      [Ev.endCall false] ∧
    (handleOtaWrite fmPerfect (sReceiving 5 3) OTA_CMD_DONE).1.otaReceived =
      3 :=
  C4_done_size_mismatch fmPerfect (sReceiving 5 3) rfl (by decide) (by decide)

/-- Claim C5, amended: while a transfer is in progress, a 4-byte OPEN frame
is not recognized as a command (line 237 requires `!otaInProgress`): with
`total_size` known and `received_bytes < total_size` it is written to the
Flash Writer as ordinary firmware data — counters are not reset and no new
`begin` occurs.  OPEN starts a session only when no transfer is in
progress. -/
theorem C5_amended (fm : FlashModel) (s : OtaState)
    (hip : s.otaInProgress = true) (hfs : s.otaFileSize ≠ 0)
    (hlt : s.otaReceived < s.otaFileSize)
    (hw : 0 < fm.writeCount OTA_CMD_OPEN) :
    handleOtaWrite fm s OTA_CMD_OPEN =
      ({ s with otaReceived :=
          (s.otaReceived + fm.writeCount OTA_CMD_OPEN) % 2 ^ 32 },
       [Ev.write OTA_CMD_OPEN]) := by
  simp [handleOtaWrite, cstrTrunc, OTA_CMD_OPEN, OTA_CMD_DONE, OTA_CMD_ABORT,
    setOtaStatus, hip, hfs, hlt, hw, Nat.not_eq_zero_of_lt]
  simp only [OTA_CMD_OPEN] at hw
  omega

/-- Witness for C5_amended: a second OPEN right after the size frame
0x01010101 is written as 4 data bytes. -/
theorem C5_amended_witness :
    handleOtaWrite fmPerfect (sReceiving 16843009 0) OTA_CMD_OPEN =
      (sReceiving 16843009 4, [Ev.write OTA_CMD_OPEN]) :=
  C5_amended fmPerfect (sReceiving 16843009 0) rfl (by decide) (by decide)
    (by decide)

/-- Claim C6, amended: a 4-byte DONE frame finalizes only when a transfer is
in progress and `total_size` is already known (`otaFileSize ≠ 0`); then the
session leaves `RECEIVING` and the Flash Writer receives exactly one `end`
call (`end(false)` on size mismatch, `end(true)` otherwise, followed by the
restart on success).  While `total_size` is still 0 the same frame is
consumed as the size frame instead (see the counterexample). -/
theorem C6_amended (fm : FlashModel) (s : OtaState)
    (hip : s.otaInProgress = true) (hfs : s.otaFileSize ≠ 0) :
    (handleOtaWrite fm s OTA_CMD_DONE).1.otaStatus ≠ OtaStatus.RECEIVING ∧
    ((handleOtaWrite fm s OTA_CMD_DONE).2 = [Ev.endCall false] ∨
     (handleOtaWrite fm s OTA_CMD_DONE).2 = [Ev.endCall true, Ev.restart] ∨
     (handleOtaWrite fm s OTA_CMD_DONE).2 = [Ev.endCall true]) := by
  simp only [handleOtaWrite, cstrTrunc, setOtaStatus]
  by_cases hne : s.otaReceived = s.otaFileSize <;>
    by_cases hend : fm.endOk true = true <;>
      simp [OTA_CMD_DONE, OTA_CMD_OPEN, hip, hfs, hne, hend]

/-- Witness for C6_amended: DONE with the size known and matched finalizes
(here successfully). -/
theorem C6_amended_witness :
    (handleOtaWrite fmPerfect (sReceiving 7 7) OTA_CMD_DONE).1.otaStatus ≠
      OtaStatus.RECEIVING ∧
    ((handleOtaWrite fmPerfect (sReceiving 7 7) OTA_CMD_DONE).2 =
        [Ev.endCall false] ∨
     (handleOtaWrite fmPerfect (sReceiving 7 7) OTA_CMD_DONE).2 =
        [Ev.endCall true, Ev.restart] ∨
     (handleOtaWrite fmPerfect (sReceiving 7 7) OTA_CMD_DONE).2 =
        [Ev.endCall true]) :=
  C6_amended fmPerfect (sReceiving 7 7) rfl (by decide)

/-- Claim C7 (confirmed): a 5-byte ABORT frame during an active transfer
(`otaInProgress`) yields exactly one Flash Writer `end(false)` call and the
`ABORTED` state with both counters reset; an ABORT frame while no transfer
is active (idle or any terminal state) changes nothing and makes no Flash
Writer call. -/
theorem C7_abort_cases (fm : FlashModel) (s : OtaState) :
    handleOtaWrite fm s OTA_CMD_ABORT =
      if s.otaInProgress = true then (abortedFrom s, [Ev.endCall false])
      else (s, []) := by
  simp [handleOtaWrite, cstrTrunc, OTA_CMD_ABORT, OTA_CMD_OPEN, OTA_CMD_DONE,
    abortUpdate, setOtaStatus, abortedFrom]
  by_cases hip : s.otaInProgress = true <;> simp [hip]

/-- Claim C8 (confirmed): a disconnect during an active transfer produces
the same transfer state (flags, counters, status, message) and the same
Flash Writer trace — exactly one `end(false)` — as an ABORT frame at the
same point, and that state is `ABORTED` with counters reset. -/
theorem C8_disconnect_matches_abort (fm : FlashModel) (s : OtaState)
    (hip : s.otaInProgress = true) :
    (onClientDisconnect s).1.otaInProgress =
      (handleOtaWrite fm s OTA_CMD_ABORT).1.otaInProgress ∧
    (onClientDisconnect s).1.otaFileSize =
      (handleOtaWrite fm s OTA_CMD_ABORT).1.otaFileSize ∧
    (onClientDisconnect s).1.otaReceived =
      (handleOtaWrite fm s OTA_CMD_ABORT).1.otaReceived ∧
    (onClientDisconnect s).1.otaStatus =
      (handleOtaWrite fm s OTA_CMD_ABORT).1.otaStatus ∧
    (onClientDisconnect s).1.lastMessage =
      (handleOtaWrite fm s OTA_CMD_ABORT).1.lastMessage ∧
    (onClientDisconnect s).2 = (handleOtaWrite fm s OTA_CMD_ABORT).2 ∧
    (onClientDisconnect s).1.otaStatus = OtaStatus.ABORTED ∧
    (onClientDisconnect s).1.otaFileSize = 0 ∧
    (onClientDisconnect s).1.otaReceived = 0 ∧
    (onClientDisconnect s).2 = [Ev.endCall false] := by
  simp [onClientDisconnect, handleOtaWrite, cstrTrunc, OTA_CMD_ABORT,
    OTA_CMD_OPEN, OTA_CMD_DONE, abortUpdate, setOtaStatus, hip]

/-- Witness for C8: disconnect in the middle of a transfer
(`total_size = 0x01010101`, 4 bytes received). -/
theorem C8_witness :
    (onClientDisconnect (sReceiving 16843009 4)).1.otaInProgress =
      (handleOtaWrite fmPerfect (sReceiving 16843009 4)
          OTA_CMD_ABORT).1.otaInProgress ∧
    (onClientDisconnect (sReceiving 16843009 4)).1.otaFileSize =
      (handleOtaWrite fmPerfect (sReceiving 16843009 4)
          OTA_CMD_ABORT).1.otaFileSize ∧
    (onClientDisconnect (sReceiving 16843009 4)).1.otaReceived =
      (handleOtaWrite fmPerfect (sReceiving 16843009 4)
          OTA_CMD_ABORT).1.otaReceived ∧
    (onClientDisconnect (sReceiving 16843009 4)).1.otaStatus =
      (handleOtaWrite fmPerfect (sReceiving 16843009 4)
          OTA_CMD_ABORT).1.otaStatus ∧
    (onClientDisconnect (sReceiving 16843009 4)).1.lastMessage =
      (handleOtaWrite fmPerfect (sReceiving 16843009 4)
          OTA_CMD_ABORT).1.lastMessage ∧
    (onClientDisconnect (sReceiving 16843009 4)).2 =
      (handleOtaWrite fmPerfect (sReceiving 16843009 4) OTA_CMD_ABORT).2 ∧
    (onClientDisconnect (sReceiving 16843009 4)).1.otaStatus =
      OtaStatus.ABORTED ∧
    (onClientDisconnect (sReceiving 16843009 4)).1.otaFileSize = 0 ∧
    (onClientDisconnect (sReceiving 16843009 4)).1.otaReceived = 0 ∧
    (onClientDisconnect (sReceiving 16843009 4)).2 = [Ev.endCall false] :=
  C8_disconnect_matches_abort fmPerfect (sReceiving 16843009 4) rfl

/-- Claim C9, amended: the reported percentage equals
`floor(received_bytes * 100 / total_size)` (and `0` when `total_size = 0`)
only as long as the `uint32_t` product does not overflow
(`received * 100 < 2^32`) and the quotient fits the `uint8_t` return type
(`< 256`); in general the code computes
`((received * 100) mod 2^32) / total mod 256`. -/
theorem C9_amended (s : OtaState)
    (h1 : s.otaReceived * 100 < 2 ^ 32)
    (h2 : s.otaReceived * 100 / s.otaFileSize < 2 ^ 8) :
    getUpdatePercentage s =
      if s.otaFileSize = 0 then 0
      else s.otaReceived * 100 / s.otaFileSize := by
  by_cases hfs : s.otaFileSize = 0
  · simp [getUpdatePercentage, hfs]
  · unfold getUpdatePercentage
    rw [if_neg hfs, if_neg hfs, Nat.mod_eq_of_lt h1, Nat.mod_eq_of_lt h2]

/-- Witness for C9_amended: `percentage(50, 200) = 25` and
`percentage(0, 0) = 0`, the two spec examples. -/
theorem C9_amended_witness :
    getUpdatePercentage
        { initState with otaFileSize := 200, otaReceived := 50 } = 25 ∧
    getUpdatePercentage initState = 0 :=
  ⟨(C9_amended { initState with otaFileSize := 200, otaReceived := 50 }
      (by decide) (by decide)).trans (by decide),
   (C9_amended initState (by decide) (by decide)).trans (by decide)⟩

/-- Claim C10 (confirmed): while a transfer is in progress with `total_size`
known, a 4-byte frame whose bytes are exactly "DONE" is always consumed as
the finalize command: the Flash Writer trace of that step contains no
`write` call, `received_bytes` is unchanged, and the session leaves
`RECEIVING` — the protocol has no escaping mechanism for firmware content
that happens to equal the marker. -/
theorem C10_done_never_written (fm : FlashModel) (s : OtaState)
    (hip : s.otaInProgress = true) (hfs : s.otaFileSize ≠ 0) :
    ((handleOtaWrite fm s OTA_CMD_DONE).2.all fun e => !e.isWrite) = true ∧
    (handleOtaWrite fm s OTA_CMD_DONE).1.otaReceived = s.otaReceived ∧
    (handleOtaWrite fm s OTA_CMD_DONE).1.otaStatus ≠ OtaStatus.RECEIVING := by
  simp only [handleOtaWrite, cstrTrunc, setOtaStatus]
  by_cases hne : s.otaReceived = s.otaFileSize <;>
    by_cases hend : fm.endOk true = true <;>
      simp [OTA_CMD_DONE, OTA_CMD_OPEN, hip, hfs, hne, hend, Ev.isWrite]

/-- Witness for C10: a transfer of 4 bytes whose payload would be "DONE"
cannot be completed — at `received = 0 < total = 4` the DONE frame is still
taken as the finalize command, no write happens. -/
theorem C10_witness :
    ((handleOtaWrite fmPerfect (sReceiving 4 0) OTA_CMD_DONE).2.all
        fun e => !e.isWrite) = true ∧
    (handleOtaWrite fmPerfect (sReceiving 4 0) OTA_CMD_DONE).1.otaReceived =
      0 ∧
    (handleOtaWrite fmPerfect (sReceiving 4 0) OTA_CMD_DONE).1.otaStatus ≠
      OtaStatus.RECEIVING :=
  C10_done_never_written fmPerfect (sReceiving 4 0) rfl (by decide)
